import Mathlib

/-!
# GdkDrop (gdk/gdkdrop.c)

A shallow embedding of `gdk/gdkdrop.c`: the drop handle with its two private
fields, the property accessors, construction and finalisation, and the
asynchronous read pair `gdk_drop_read_async` / `gdk_drop_read_finish` with the
local "not implemented" pair `gdk_drop_read_local_async` /
`gdk_drop_read_local_finish`.

Conventions.
* A C pointer is an `Option Addr`; `none` is NULL.
* The program state is a `World`: reference counts, the run-time type of each
  address, the private data of each drop instance, and a trace of the calls the
  file makes to its collaborators.
* A C function that can abort (`g_assert`, a call through a NULL function
  pointer) returns `Except Fault _`.
* `g_return_if_fail` / `g_return_val_if_fail` record a `critical` event and
  return.
* Code outside this file that runs through a virtual slot acts on the
  component `World.backend` only; the private data of a drop is reachable
  through `gdk_drop_get_instance_private` alone, which is static to the file.
-/

namespace GdkDrop

/-- Object addresses. -/
abbrev Addr := Nat

/-- A nullable C pointer. -/
abbrev Ptr := Option Addr

/-- The instance-private data `struct _GdkDropPrivate`. -/
structure GdkDropPrivate where
  device : Ptr
  formats : Ptr
deriving DecidableEq, Repr

/-- Property id `PROP_0` of the anonymous enum. -/
def PROP_0 : Nat := 0
/-- Property id `PROP_DEVICE`. -/
def PROP_DEVICE : Nat := 1
/-- Property id `PROP_DISPLAY`. -/
def PROP_DISPLAY : Nat := 2
/-- Property id `PROP_FORMATS`. -/
def PROP_FORMATS : Nat := 3
/-- The enum's last member `N_PROPERTIES`. -/
def N_PROPERTIES : Nat := 4

/-- The `GParamFlags` bits the file uses. -/
inductive GParamFlag
  | G_PARAM_READABLE
  | G_PARAM_WRITABLE
  | G_PARAM_CONSTRUCT_ONLY
  | G_PARAM_STATIC_STRINGS
  | G_PARAM_EXPLICIT_NOTIFY
deriving DecidableEq, Repr

/-- Macro `G_PARAM_READWRITE` is `G_PARAM_READABLE | G_PARAM_WRITABLE`. -/
def G_PARAM_READWRITE : List GParamFlag :=
  [GParamFlag.G_PARAM_READABLE, GParamFlag.G_PARAM_WRITABLE]

/-- The value types of the three properties. -/
inductive GType
  | GDK_TYPE_DEVICE
  | GDK_TYPE_DISPLAY
  | GDK_TYPE_CONTENT_FORMATS
deriving DecidableEq, Repr

/-- A property description, as built by `g_param_spec_object` and
`g_param_spec_boxed`. -/
structure GParamSpec where
  name : String
  nick : String
  blurb : String
  value_type : GType
  boxed : Bool
  flags : List GParamFlag
deriving DecidableEq, Repr

/-- The functions the file stores in the `GObjectClass` slots. -/
inductive GObjectImpl
  | gdk_drop_get_property
  | gdk_drop_set_property
  | gdk_drop_finalize
  | inherited (id : Nat)
deriving DecidableEq, Repr

/-- The part of `GObjectClass` that `gdk_drop_class_init` writes. -/
structure GObjectClass where
  get_property : Option GObjectImpl
  set_property : Option GObjectImpl
  finalize : Option GObjectImpl
  properties : List (Option GParamSpec)
deriving DecidableEq, Repr

/-- What a `read_async` slot can hold: the local function of this file, or a
function of a backend. -/
inductive ReadAsyncImpl
  | gdk_drop_read_local_async
  | backend (id : Nat)
deriving DecidableEq, Repr

/-- What a `read_finish` slot can hold. -/
inductive ReadFinishImpl
  | gdk_drop_read_local_finish
  | backend (id : Nat)
deriving DecidableEq, Repr

/-- Modelled from the spec: `struct _GdkDropClass` is declared in
`gdkdndprivate.h`, which is not among the sources. The spec gives it as the
parent class followed by "a virtual pair" of slots, backend read and backend
finish, called here through `GDK_DROP_GET_CLASS (self)->read_async` and
`->read_finish`. A slot is `none` when it holds NULL. -/
structure GdkDropClass where
  parent_class : GObjectClass
  read_async : Option ReadAsyncImpl
  read_finish : Option ReadFinishImpl
deriving DecidableEq, Repr

/-- A `gpointer` used as a source tag. -/
inductive SourceTag
  | gdk_drop_read_local_async
  | other (id : Nat)
deriving DecidableEq, Repr

/-- Error domains. -/
inductive GErrorDomain
  | G_IO_ERROR
  | other (quark : Nat)
deriving DecidableEq, Repr

/-- The members of `GIOErrorEnum` that occur here. -/
inductive GIOErrorEnum
  | G_IO_ERROR_NOT_SUPPORTED
  | G_IO_ERROR_CANCELLED
  | other (code : Int)
deriving DecidableEq, Repr

/-- A `GError`. The message is the untranslated message id. -/
structure GError where
  domain : GErrorDomain
  code : GIOErrorEnum
  message : String
deriving DecidableEq, Repr

/-- A `GError **`: `none` is a NULL location, `some none` a location that
holds NULL, `some (some e)` a location that holds `e`. -/
abbrev ErrorLoc := Option (Option GError)

/-- A `const char **`: `none` is a NULL location, `some v` a location that
holds `v`. -/
abbrev MimeLoc := Option (Option String)

/-- The fields of a `GTask` that the file sets or reads. -/
structure GTask where
  source_object : Ptr
  cancellable : Ptr
  callback : Ptr
  callback_data : Ptr
  priority : Int
  source_tag : Option SourceTag
  task_data : Option String
  check_cancellable : Bool
  error : Option GError
  result : Ptr
  result_set : Bool
deriving DecidableEq, Repr

/-- A result token (`GAsyncResult *`, not NULL): a `GTask`, or another
implementation of the interface together with the tag its `is_tagged`
answers to. -/
inductive GAsyncResult
  | task (t : GTask)
  | foreign (id : Nat) (tag : Option SourceTag)
deriving DecidableEq, Repr

/-- The arguments of a `read_async` virtual call. -/
structure ReadAsyncArgs where
  self : Addr
  formats : Addr
  io_priority : Int
  cancellable : Ptr
  callback : Ptr
  user_data : Ptr
deriving DecidableEq, Repr

/-- The arguments of a `read_finish` virtual call. -/
structure ReadFinishArgs where
  self : Addr
  out_mime_type : MimeLoc
  result : GAsyncResult
  error : ErrorLoc
deriving DecidableEq, Repr

/-- What a `read_finish` call leaves behind: the returned stream and the
contents of the two out locations. -/
structure FinishResult where
  stream : Ptr
  out_mime_type : MimeLoc
  error : ErrorLoc
deriving DecidableEq, Repr

/-- Calls to collaborators and diagnostics, in program order. -/
inductive Event
  | critical (check : String)
  | warn_invalid_property_id (prop_id : Nat)
  | gdk_content_formats_new (mime_types : List String) (n : Nat)
  | gdk_content_formats_unref (formats : Addr)
  | read_async (impl : ReadAsyncImpl) (args : ReadAsyncArgs)
  | read_finish (impl : ReadFinishImpl) (args : ReadFinishArgs)
  | parent_finalize (object : Addr)
deriving DecidableEq, Repr

/-- Ways in which a call does not return. -/
inductive Fault
  | assertion_failed (expr : String)
  | null_call (slot : String)
deriving DecidableEq, Repr

/-- The program state. `klass a` is the class of the drop instance at `a`, or
`none` when `a` is not a `GdkDrop`. -/
structure World (β : Type) where
  refs : Addr → Nat
  klass : Addr → Option GdkDropClass
  priv : Addr → GdkDropPrivate
  is_cancellable : Addr → Bool
  cancelled : Addr → Bool
  pending : List GTask
  trace : List Event
  backend : β

/-- The collaborators the file calls but does not define. -/
structure Env (β : Type) where
  DROP_SUBCLASS : Bool
  gdk_device_get_display : Ptr → Ptr
  gdk_content_formats_new : List String → Nat → Addr
  read_async : Nat → β → ReadAsyncArgs → β
  read_finish : Nat → β → ReadFinishArgs → β × FinishResult

variable {β : Type}

/-- Append one event to the trace. -/
def World.record (w : World β) (e : Event) : World β :=
  { w with trace := w.trace ++ [e] }

/-- The failure branch of `g_return_if_fail (check)`. -/
def g_return_if_fail_warning (w : World β) (check : String) : World β :=
  w.record (Event.critical check)

/-- Take a reference: `g_object_ref`, `gdk_content_formats_ref`. -/
def ref (w : World β) (a : Addr) : World β :=
  { w with refs := fun x => if x = a then w.refs a + 1 else w.refs x }

/-- Drop a reference: `g_object_unref`. -/
def unref (w : World β) (a : Addr) : World β :=
  { w with refs := fun x => if x = a then w.refs a - 1 else w.refs x }

/-- Function `g_value_dup_object`: the object held by the value, with a new reference,
or NULL. -/
def g_value_dup_object (w : World β) (value : Ptr) : World β × Ptr :=
  match value with
  | none => (w, none)
  | some a => (ref w a, some a)

/-- Modelled from the spec: the boxed type of `GdkContentFormats` is
registered in `gdkcontentformats.c`, which is not among the sources. The spec
describes the formats value as a "reference-counted value type" with "shared
ownership", so copying the boxed value takes a reference on the same value. -/
def g_value_dup_boxed (w : World β) (value : Ptr) : World β × Ptr :=
  match value with
  | none => (w, none)
  | some a => (ref w a, some a)

/-- Function `g_value_set_object`: the value takes its own reference on the object. -/
def g_value_set_object (w : World β) (o : Ptr) : World β × Ptr :=
  match o with
  | none => (w, none)
  | some a => (ref w a, some a)

/-- Function `g_value_set_boxed`, with the boxed copy of `g_value_dup_boxed`. -/
def g_value_set_boxed (w : World β) (b : Ptr) : World β × Ptr :=
  g_value_dup_boxed w b

/-- Function `g_clear_object (&p)` on a pointer `p`: drops the reference when `p` is
not NULL. The caller stores NULL. -/
def g_clear_object (w : World β) (p : Ptr) : World β :=
  match p with
  | none => w
  | some a => unref w a

/-- Store the private data of the instance at `a`. -/
def World.setPriv (w : World β) (a : Addr) (p : GdkDropPrivate) : World β :=
  { w with priv := fun x => if x = a then p else w.priv x }

/-- Macro `GDK_IS_DROP (self)`, returning the address and the class
(`GDK_DROP_GET_CLASS`) when the check holds. -/
def drop_instance (w : World β) (self : Ptr) : Option (Addr × GdkDropClass) :=
  match self with
  | none => none
  | some a =>
    match w.klass a with
    | none => none
    | some k => some (a, k)

/-- Macro `GDK_IS_DROP (self)`. -/
def GDK_IS_DROP (w : World β) (self : Ptr) : Bool :=
  (drop_instance w self).isSome

/-- Macro `G_IS_CANCELLABLE (cancellable)`. -/
def G_IS_CANCELLABLE (w : World β) (cancellable : Ptr) : Bool :=
  match cancellable with
  | none => false
  | some c => w.is_cancellable c

/-- Function `g_cancellable_is_cancelled`: false for NULL. -/
def g_cancellable_is_cancelled (w : World β) (cancellable : Ptr) : Bool :=
  match cancellable with
  | none => false
  | some c => w.cancelled c

/-- Function `g_strv_length` of a NULL-terminated array holding the strings `l`. -/
def g_strv_length (l : List String) : Nat :=
  l.length

/-! ## GTask, as far as the file uses it -/

/-- Function `g_task_new (source_object, cancellable, callback, callback_data)`. -/
def g_task_new (source_object cancellable callback callback_data : Ptr) : GTask :=
  { source_object := source_object
    cancellable := cancellable
    callback := callback
    callback_data := callback_data
    priority := 0
    source_tag := none
    task_data := none
    check_cancellable := true
    error := none
    result := none
    result_set := false }

/-- Function `g_task_set_priority`. -/
def g_task_set_priority (task : GTask) (priority : Int) : GTask :=
  { task with priority := priority }

/-- Function `g_task_set_source_tag`. -/
def g_task_set_source_tag (task : GTask) (tag : SourceTag) : GTask :=
  { task with source_tag := some tag }

/-- Function `g_task_return_new_error`: the error is stored in the task and the task's
completion, the call of its callback, is queued on the main loop. -/
def g_task_return_new_error (w : World β) (task : GTask) (domain : GErrorDomain)
    (code : GIOErrorEnum) (message : String) : World β :=
  { w with pending := w.pending ++ [{ task with error := some ⟨domain, code, message⟩ }] }

/-- Function `g_task_is_valid (result, source_object)`: the result is a `GTask` whose
source object is `source_object`. -/
def g_task_is_valid (result : GAsyncResult) (source_object : Ptr) : Bool :=
  match result with
  | GAsyncResult.task t => t.source_object == source_object
  | GAsyncResult.foreign _ _ => false

/-- Function `g_async_result_is_tagged (result, tag)`. -/
def g_async_result_is_tagged (result : GAsyncResult) (tag : SourceTag) : Bool :=
  match result with
  | GAsyncResult.task t => t.source_tag == some tag
  | GAsyncResult.foreign _ t => t == some tag

/-- Function `g_propagate_error (dest, src)`. -/
def g_propagate_error (dest : ErrorLoc) (src : GError) : ErrorLoc :=
  match dest with
  | none => none
  | some none => some (some src)
  | some (some e) => some (some e)

/-- Function `g_task_propagate_pointer (task, error)`: a cancelled cancellable wins when
the task checks it, then the stored error, then the stored pointer. -/
def g_task_propagate_pointer (w : World β) (task : GTask) (error : ErrorLoc) :
    World β × Ptr × ErrorLoc :=
  if task.check_cancellable && g_cancellable_is_cancelled w task.cancellable then
    (w, none, g_propagate_error error
      ⟨GErrorDomain.G_IO_ERROR, GIOErrorEnum.G_IO_ERROR_CANCELLED, "Operation was cancelled"⟩)
  else
    match task.error with
    | some e => (w, none, g_propagate_error error e)
    | none =>
      if task.result_set then (w, task.result, error)
      else (g_return_if_fail_warning w "task->result_set", none, error)

/-! ## Content formats -/

/-- Modelled from the spec: `gdk_content_formats_new` lives in
`gdkcontentformats.c`, which is not among the sources. The spec gives it as
"construction from a string list" of a reference-counted value; the caller
owns the one reference of the new value. The address of the new value is the
collaborator's choice (`Env.gdk_content_formats_new`). -/
def gdk_content_formats_new (env : Env β) (w : World β) (mime_types : List String) (n : Nat) :
    World β × Addr :=
  let f := env.gdk_content_formats_new mime_types n
  let w1 := w.record (Event.gdk_content_formats_new mime_types n)
  ({ w1 with refs := fun x => if x = f then 1 else w1.refs x }, f)

/-- Modelled from the spec: `gdk_content_formats_unref`, of the same missing
file; it gives back one reference. -/
def gdk_content_formats_unref (w : World β) (formats : Addr) : World β :=
  unref (w.record (Event.gdk_content_formats_unref formats)) formats

/-! ## The functions of gdkdrop.c -/

/-- Function `gdk_drop_read_local_async`. -/
def gdk_drop_read_local_async (w : World β) (self : Ptr) (_formats : Addr) (io_priority : Int)
    (cancellable callback user_data : Ptr) : World β :=
  let task := g_task_new self cancellable callback user_data
  let task := g_task_set_priority task io_priority
  let task := g_task_set_source_tag task SourceTag.gdk_drop_read_local_async
  g_task_return_new_error w task GErrorDomain.G_IO_ERROR GIOErrorEnum.G_IO_ERROR_NOT_SUPPORTED
    "Reading not implemented."

/-- Function `gdk_drop_read_local_finish`. -/
def gdk_drop_read_local_finish (w : World β) (self : Ptr) (out_mime_type : MimeLoc)
    (result : GAsyncResult) (error : ErrorLoc) : World β × FinishResult :=
  if !g_task_is_valid result self then
    (g_return_if_fail_warning w "g_task_is_valid (result, self)", ⟨none, out_mime_type, error⟩)
  else
    match result with
    | GAsyncResult.foreign _ _ =>
      (g_return_if_fail_warning w "g_task_is_valid (result, self)", ⟨none, out_mime_type, error⟩)
    | GAsyncResult.task t =>
      if t.source_tag != some SourceTag.gdk_drop_read_local_async then
        (g_return_if_fail_warning w
          "g_task_get_source_tag (G_TASK (result)) == gdk_drop_read_local_async",
          ⟨none, out_mime_type, error⟩)
      else
        let out := match out_mime_type with
          | none => none
          | some _ => some t.task_data
        let r := g_task_propagate_pointer w t error
        (r.1, ⟨r.2.1, out, r.2.2⟩)

/-- Function `gdk_drop_set_property`. The `GValue` is given by the pointer it holds. -/
def gdk_drop_set_property (env : Env β) (w : World β) (gobject : Addr) (prop_id : Nat)
    (value : Ptr) : Except Fault (World β) :=
  if prop_id = PROP_DEVICE then
    let r := g_value_dup_object w value
    let w1 := r.1.setPriv gobject { r.1.priv gobject with device := r.2 }
    if (w1.priv gobject).device = none then
      Except.error (Fault.assertion_failed "priv->device != NULL")
    else Except.ok w1
  else if prop_id = PROP_FORMATS then
    let r := g_value_dup_boxed w value
    let w1 := r.1.setPriv gobject { r.1.priv gobject with formats := r.2 }
    if env.DROP_SUBCLASS && (w1.priv gobject).formats == none then
      Except.error (Fault.assertion_failed "priv->formats != NULL")
    else Except.ok w1
  else
    Except.ok (w.record (Event.warn_invalid_property_id prop_id))

/-- Function `gdk_drop_get_property`: the world after the call and what the `GValue`
holds, `none` when the value was not written. -/
def gdk_drop_get_property (env : Env β) (w : World β) (gobject : Addr) (prop_id : Nat) :
    World β × Option Ptr :=
  if prop_id = PROP_DEVICE then
    let r := g_value_set_object w (w.priv gobject).device
    (r.1, some r.2)
  else if prop_id = PROP_DISPLAY then
    let r := g_value_set_object w (env.gdk_device_get_display (w.priv gobject).device)
    (r.1, some r.2)
  else if prop_id = PROP_FORMATS then
    let r := g_value_set_boxed w (w.priv gobject).formats
    (r.1, some r.2)
  else
    (w.record (Event.warn_invalid_property_id prop_id), none)

/-- Function `gdk_drop_finalize`: clears the device and chains up. -/
def gdk_drop_finalize (w : World β) (object : Addr) : World β :=
  let w1 := g_clear_object w (w.priv object).device
  let w2 := w1.setPriv object { w1.priv object with device := none }
  w2.record (Event.parent_finalize object)

/-- The `device` property. -/
def device_pspec : GParamSpec :=
  { name := "device", nick := "Device", blurb := "The device performing the drop"
    value_type := GType.GDK_TYPE_DEVICE, boxed := false
    flags := G_PARAM_READWRITE ++ [GParamFlag.G_PARAM_CONSTRUCT_ONLY,
      GParamFlag.G_PARAM_STATIC_STRINGS, GParamFlag.G_PARAM_EXPLICIT_NOTIFY] }

/-- The `display` property. -/
def display_pspec : GParamSpec :=
  { name := "display", nick := "Display", blurb := "Display this drag belongs to"
    value_type := GType.GDK_TYPE_DISPLAY, boxed := false
    flags := [GParamFlag.G_PARAM_READABLE, GParamFlag.G_PARAM_STATIC_STRINGS,
      GParamFlag.G_PARAM_EXPLICIT_NOTIFY] }

/-- The `formats` property. -/
def formats_pspec : GParamSpec :=
  { name := "formats", nick := "Formats", blurb := "The possible formats for data"
    value_type := GType.GDK_TYPE_CONTENT_FORMATS, boxed := true
    flags := G_PARAM_READWRITE ++ [GParamFlag.G_PARAM_CONSTRUCT_ONLY,
      GParamFlag.G_PARAM_STATIC_STRINGS, GParamFlag.G_PARAM_EXPLICIT_NOTIFY] }

/-- Function `gdk_drop_class_init`: three `GObjectClass` slots and the property table.
The slots `read_async` and `read_finish` are not assigned. -/
def gdk_drop_class_init (klass : GdkDropClass) : GdkDropClass :=
  { klass with
    parent_class :=
      { get_property := some GObjectImpl.gdk_drop_get_property
        set_property := some GObjectImpl.gdk_drop_set_property
        finalize := some GObjectImpl.gdk_drop_finalize
        properties := [none, some device_pspec, some display_pspec, some formats_pspec] } }

/-- Function `gdk_drop_init`: empty. -/
def gdk_drop_init (w : World β) (_self : Addr) : World β :=
  w

/-- Function `gdk_drop_get_display`. -/
def gdk_drop_get_display (env : Env β) (w : World β) (self : Ptr) : World β × Ptr :=
  match drop_instance w self with
  | none => (g_return_if_fail_warning w "GDK_IS_DROP (self)", none)
  | some (a, _) => (w, env.gdk_device_get_display (w.priv a).device)

/-- Function `gdk_drop_get_device`. -/
def gdk_drop_get_device (w : World β) (self : Ptr) : World β × Ptr :=
  match drop_instance w self with
  | none => (g_return_if_fail_warning w "GDK_IS_DROP (self)", none)
  | some (a, _) => (w, (w.priv a).device)

/-- Function `gdk_drop_get_formats`. -/
def gdk_drop_get_formats (w : World β) (self : Ptr) : World β × Ptr :=
  match drop_instance w self with
  | none => (g_return_if_fail_warning w "GDK_IS_DROP (self)", none)
  | some (a, _) => (w, (w.priv a).formats)

/-- The call `GDK_DROP_GET_CLASS (self)->read_async (...)`. -/
def call_read_async (env : Env β) (w : World β) (slot : Option ReadAsyncImpl)
    (args : ReadAsyncArgs) : Except Fault (World β) :=
  match slot with
  | none => Except.error (Fault.null_call "read_async")
  | some impl =>
    let w1 := w.record (Event.read_async impl args)
    match impl with
    | ReadAsyncImpl.gdk_drop_read_local_async =>
      Except.ok (gdk_drop_read_local_async w1 (some args.self) args.formats args.io_priority
        args.cancellable args.callback args.user_data)
    | ReadAsyncImpl.backend id =>
      Except.ok { w1 with backend := env.read_async id w1.backend args }

/-- The call `GDK_DROP_GET_CLASS (self)->read_finish (...)`. -/
def call_read_finish (env : Env β) (w : World β) (slot : Option ReadFinishImpl)
    (args : ReadFinishArgs) : Except Fault (World β × FinishResult) :=
  match slot with
  | none => Except.error (Fault.null_call "read_finish")
  | some impl =>
    let w1 := w.record (Event.read_finish impl args)
    match impl with
    | ReadFinishImpl.gdk_drop_read_local_finish =>
      Except.ok (gdk_drop_read_local_finish w1 (some args.self) args.out_mime_type args.result
        args.error)
    | ReadFinishImpl.backend id =>
      let r := env.read_finish id w1.backend args
      Except.ok ({ w1 with backend := r.1 }, r.2)

/-- Function `gdk_drop_read_async`. The array `mime_types` is `none` when NULL, else
the strings before its NULL terminator. -/
def gdk_drop_read_async (env : Env β) (w : World β) (self : Ptr)
    (mime_types : Option (List String)) (io_priority : Int)
    (cancellable callback user_data : Ptr) : Except Fault (World β) :=
  match drop_instance w self with
  | none => Except.ok (g_return_if_fail_warning w "GDK_IS_DROP (self)")
  | some (a, k) =>
    match mime_types with
    | none =>
      Except.ok (g_return_if_fail_warning w "mime_types != NULL && mime_types[0] != NULL")
    | some [] =>
      Except.ok (g_return_if_fail_warning w "mime_types != NULL && mime_types[0] != NULL")
    | some (m :: ms) =>
      if !(cancellable == none || G_IS_CANCELLABLE w cancellable) then
        Except.ok (g_return_if_fail_warning w
          "cancellable == NULL || G_IS_CANCELLABLE (cancellable)")
      else if callback == none then
        Except.ok (g_return_if_fail_warning w "callback != NULL")
      else
        let r := gdk_content_formats_new env w (m :: ms) (g_strv_length (m :: ms))
        match call_read_async env r.1 k.read_async
            ⟨a, r.2, io_priority, cancellable, callback, user_data⟩ with
        | Except.error e => Except.error e
        | Except.ok w2 => Except.ok (gdk_content_formats_unref w2 r.2)

/-- Function `gdk_drop_read_finish`. -/
def gdk_drop_read_finish (env : Env β) (w : World β) (self : Ptr) (out_mime_type : MimeLoc)
    (result : GAsyncResult) (error : ErrorLoc) : Except Fault (World β × FinishResult) :=
  match drop_instance w self with
  | none =>
    Except.ok (g_return_if_fail_warning w "GDK_IS_DROP (self)", ⟨none, out_mime_type, error⟩)
  | some (a, k) =>
    match error with
    | some (some _) =>
      Except.ok (g_return_if_fail_warning w "error == NULL || *error == NULL",
        ⟨none, out_mime_type, error⟩)
    | _ =>
      if g_async_result_is_tagged result SourceTag.gdk_drop_read_local_async then
        Except.ok (gdk_drop_read_local_finish w self out_mime_type result error)
      else
        call_read_finish env w k.read_finish ⟨a, out_mime_type, result, error⟩

/-! ## Construction and the life of a handle -/

/-- The class structure as `gdk_drop_class_init` receives it: the
`GObjectClass` part copied from the parent class, the slots the drop class
adds zero-filled. -/
def class_before_init : GdkDropClass :=
  { parent_class :=
      { get_property := some (GObjectImpl.inherited 0)
        set_property := some (GObjectImpl.inherited 1)
        finalize := some (GObjectImpl.inherited 2)
        properties := [] }
    read_async := none
    read_finish := none }

/-- The class of the base drop type. -/
def gdk_drop_class : GdkDropClass :=
  gdk_drop_class_init class_before_init

/-- Construction of a drop instance of class `k` at address `self`
(`g_object_new`): the instance memory is zero-filled, `gdk_drop_init` runs,
and each of the two construct-only properties is set once through
`gdk_drop_set_property`, to the value given, or to the NULL default of its
param spec when the caller omits it (`none`). -/
def g_object_new_drop (env : Env β) (w : World β) (self : Addr) (k : GdkDropClass)
    (device formats : Ptr) : Except Fault (World β) :=
  let w0 : World β :=
    { w with
      klass := fun x => if x = self then some k else w.klass x
      priv := fun x => if x = self then ⟨none, none⟩ else w.priv x }
  let w1 := gdk_drop_init w0 self
  match gdk_drop_set_property env w1 self PROP_DEVICE device with
  | Except.error e => Except.error e
  | Except.ok w2 => gdk_drop_set_property env w2 self PROP_FORMATS formats

/-- The operations on a constructed handle, short of destruction. -/
inductive Op
  | get_display
  | get_device
  | get_formats
  | get_property (prop_id : Nat)
  | read_async (mime_types : Option (List String)) (io_priority : Int)
      (cancellable callback user_data : Ptr)
  | read_finish (out_mime_type : MimeLoc) (result : GAsyncResult) (error : ErrorLoc)
deriving DecidableEq, Repr

/-- One operation on the handle at `self`. -/
def step (env : Env β) (self : Addr) (w : World β) : Op → Except Fault (World β)
  | Op.get_display => Except.ok (gdk_drop_get_display env w (some self)).1
  | Op.get_device => Except.ok (gdk_drop_get_device w (some self)).1
  | Op.get_formats => Except.ok (gdk_drop_get_formats w (some self)).1
  | Op.get_property prop_id => Except.ok (gdk_drop_get_property env w self prop_id).1
  | Op.read_async mime_types io_priority cancellable callback user_data =>
    gdk_drop_read_async env w (some self) mime_types io_priority cancellable callback user_data
  | Op.read_finish out_mime_type result error =>
    match gdk_drop_read_finish env w (some self) out_mime_type result error with
    | Except.error e => Except.error e
    | Except.ok r => Except.ok r.1

/-- A sequence of operations on the handle at `self`. -/
def run (env : Env β) (self : Addr) (w : World β) : List Op → Except Fault (World β)
  | [] => Except.ok w
  | op :: ops =>
    match step env self w op with
    | Except.error e => Except.error e
    | Except.ok w1 => run env self w1 ops

/-! ## A concrete setting -/

/-- A collaborator set: backend 0 answers every finish call with the stream at
address 99 and the mime type "text/plain"; a device at address `d` belongs to
the display at `d + 100`. -/
def env0 : Env Nat :=
  { DROP_SUBCLASS := false
    gdk_device_get_display := fun d => d.map (fun a => a + 100)
    gdk_content_formats_new := fun _ n => 1000 + n
    read_async := fun _ b _ => b + 1
    read_finish := fun _ b args =>
      (b + 1, ⟨some 99, args.out_mime_type.map (fun _ => some "text/plain"), args.error⟩) }

/-- A world without drops: every object has one reference, address 50 is a
cancellable, nothing is cancelled. -/
def w0 : World Nat :=
  { refs := fun _ => 1
    klass := fun _ => none
    priv := fun _ => ⟨none, none⟩
    is_cancellable := fun a => a == 50
    cancelled := fun _ => false
    pending := []
    trace := []
    backend := 0 }

/-- A class whose two slots hold the functions of backend 0. -/
def backend_class : GdkDropClass :=
  { gdk_drop_class with
    read_async := some (ReadAsyncImpl.backend 0)
    read_finish := some (ReadFinishImpl.backend 0) }

/-- The world `w0` with one drop at address `self`, of class `k`, holding
device 10 and formats 20. -/
def w_drop (self : Addr) (k : GdkDropClass) : World Nat :=
  { w0 with
    klass := fun x => if x = self then some k else none
    priv := fun x => if x = self then ⟨some 10, some 20⟩ else ⟨none, none⟩ }

/-- The world of a successful call, or `d`. -/
def okOr {ε α : Type} (d : α) : Except ε α → α
  | Except.ok a => a
  | Except.error _ => d

/-- Operations used by the witnesses: an accessor, a read request for two
mime types, the completion of a token of backend 0, and a property read. -/
def ops0 : List Op :=
  [Op.get_device,
   Op.read_async (some ["text/plain", "text/uri-list"]) 0 (some 50) (some 7) none,
   Op.read_finish (some none)
     (GAsyncResult.task
       { g_task_new (some 1) (some 50) (some 7) none with source_tag := some (SourceTag.other 5) })
     (some none),
   Op.get_property PROP_DISPLAY]

/-- A token of backend 0 whose source object is the object at address 2. -/
def foreign_token : GAsyncResult :=
  GAsyncResult.task
    { g_task_new (some 2) none (some 7) none with source_tag := some (SourceTag.other 5) }

/-- A token that carries the local tag and whose source object is the object at
address 2. -/
def stray_local_token : GAsyncResult :=
  GAsyncResult.task
    { g_task_new (some 2) none (some 7) none with
      source_tag := some SourceTag.gdk_drop_read_local_async }

/-! ## Frame lemmas: what the read pair and the accessors leave alone -/

/-- The private data and the run-time types are the same in both worlds. -/
def SameHandles (w w2 : World β) : Prop :=
  w2.priv = w.priv ∧ w2.klass = w.klass

theorem SameHandles.refl (w : World β) : SameHandles w w :=
  ⟨rfl, rfl⟩

theorem SameHandles.trans {w w2 w3 : World β} (h : SameHandles w w2) (h2 : SameHandles w2 w3) :
    SameHandles w w3 :=
  ⟨h2.1.trans h.1, h2.2.trans h.2⟩

theorem sameHandles_record (w : World β) (e : Event) : SameHandles w (w.record e) :=
  ⟨rfl, rfl⟩

theorem sameHandles_ref (w : World β) (a : Addr) : SameHandles w (ref w a) :=
  ⟨rfl, rfl⟩

theorem sameHandles_unref (w : World β) (a : Addr) : SameHandles w (unref w a) :=
  ⟨rfl, rfl⟩

theorem sameHandles_value_set (w : World β) (p : Ptr) :
    SameHandles w (g_value_set_object w p).1 := by
  cases p <;> exact ⟨rfl, rfl⟩

theorem sameHandles_propagate (w : World β) (t : GTask) (error : ErrorLoc) :
    SameHandles w (g_task_propagate_pointer w t error).1 := by
  unfold g_task_propagate_pointer
  split
  · exact ⟨rfl, rfl⟩
  · split
    · exact ⟨rfl, rfl⟩
    · split <;> exact ⟨rfl, rfl⟩

theorem sameHandles_local_finish (w : World β) (self : Ptr) (out : MimeLoc)
    (result : GAsyncResult) (error : ErrorLoc) :
    SameHandles w (gdk_drop_read_local_finish w self out result error).1 := by
  unfold gdk_drop_read_local_finish
  split
  · exact ⟨rfl, rfl⟩
  · split
    · exact ⟨rfl, rfl⟩
    · split
      · exact ⟨rfl, rfl⟩
      · exact sameHandles_propagate w _ error

theorem sameHandles_call_read_async (env : Env β) (w w2 : World β)
    (slot : Option ReadAsyncImpl) (args : ReadAsyncArgs)
    (h : call_read_async env w slot args = Except.ok w2) : SameHandles w w2 := by
  unfold call_read_async at h
  cases slot with
  | none => simp at h
  | some impl =>
    cases impl with
    | gdk_drop_read_local_async =>
      simp only [Except.ok.injEq] at h
      subst h
      exact ⟨rfl, rfl⟩
    | backend id =>
      simp only [Except.ok.injEq] at h
      subst h
      exact ⟨rfl, rfl⟩

theorem sameHandles_call_read_finish (env : Env β) (w : World β)
    (slot : Option ReadFinishImpl) (args : ReadFinishArgs) (r : World β × FinishResult)
    (h : call_read_finish env w slot args = Except.ok r) : SameHandles w r.1 := by
  unfold call_read_finish at h
  cases slot with
  | none => simp at h
  | some impl =>
    cases impl with
    | gdk_drop_read_local_finish =>
      simp only [Except.ok.injEq] at h
      subst h
      exact (sameHandles_record w _).trans (sameHandles_local_finish _ _ _ _ _)
    | backend id =>
      simp only [Except.ok.injEq] at h
      subst h
      exact ⟨rfl, rfl⟩

theorem sameHandles_read_async (env : Env β) (w w2 : World β) (self : Ptr)
    (mime_types : Option (List String)) (io_priority : Int)
    (cancellable callback user_data : Ptr)
    (h : gdk_drop_read_async env w self mime_types io_priority cancellable callback user_data
      = Except.ok w2) : SameHandles w w2 := by
  unfold gdk_drop_read_async at h
  split at h
  · simp only [Except.ok.injEq] at h
    subst h
    exact ⟨rfl, rfl⟩
  · split at h
    · simp only [Except.ok.injEq] at h
      subst h
      exact ⟨rfl, rfl⟩
    · simp only [Except.ok.injEq] at h
      subst h
      exact ⟨rfl, rfl⟩
    · split at h
      · simp only [Except.ok.injEq] at h
        subst h
        exact ⟨rfl, rfl⟩
      · split at h
        · simp only [Except.ok.injEq] at h
          subst h
          exact ⟨rfl, rfl⟩
        · dsimp only at h
          split at h
          · simp at h
          · rename_i w3 hc
            simp only [Except.ok.injEq] at h
            subst h
            have h3 := sameHandles_call_read_async env _ _ _ _ hc
            exact ⟨h3.1, h3.2⟩

theorem sameHandles_read_finish (env : Env β) (w : World β) (self : Ptr) (out : MimeLoc)
    (result : GAsyncResult) (error : ErrorLoc) (r : World β × FinishResult)
    (h : gdk_drop_read_finish env w self out result error = Except.ok r) :
    SameHandles w r.1 := by
  unfold gdk_drop_read_finish at h
  split at h
  · simp only [Except.ok.injEq] at h
    subst h
    exact ⟨rfl, rfl⟩
  · split at h
    · simp only [Except.ok.injEq] at h
      subst h
      exact ⟨rfl, rfl⟩
    · split at h
      · simp only [Except.ok.injEq] at h
        subst h
        exact sameHandles_local_finish _ _ _ _ _
      · exact sameHandles_call_read_finish env _ _ _ _ h

theorem sameHandles_get_display (env : Env β) (w : World β) (self : Ptr) :
    SameHandles w (gdk_drop_get_display env w self).1 := by
  unfold gdk_drop_get_display
  split <;> exact ⟨rfl, rfl⟩

theorem sameHandles_get_device (w : World β) (self : Ptr) :
    SameHandles w (gdk_drop_get_device w self).1 := by
  unfold gdk_drop_get_device
  split <;> exact ⟨rfl, rfl⟩

theorem sameHandles_get_formats (w : World β) (self : Ptr) :
    SameHandles w (gdk_drop_get_formats w self).1 := by
  unfold gdk_drop_get_formats
  split <;> exact ⟨rfl, rfl⟩

theorem sameHandles_get_property (env : Env β) (w : World β) (gobject : Addr) (prop_id : Nat) :
    SameHandles w (gdk_drop_get_property env w gobject prop_id).1 := by
  unfold gdk_drop_get_property
  split
  · exact sameHandles_value_set w _
  · split
    · exact sameHandles_value_set w _
    · split
      · exact sameHandles_value_set w _
      · exact ⟨rfl, rfl⟩

theorem sameHandles_step (env : Env β) (self : Addr) (w w2 : World β) (op : Op)
    (h : step env self w op = Except.ok w2) : SameHandles w w2 := by
  cases op with
  | get_display =>
    simp only [step, Except.ok.injEq] at h
    subst h
    exact sameHandles_get_display env w _
  | get_device =>
    simp only [step, Except.ok.injEq] at h
    subst h
    exact sameHandles_get_device w _
  | get_formats =>
    simp only [step, Except.ok.injEq] at h
    subst h
    exact sameHandles_get_formats w _
  | get_property prop_id =>
    simp only [step, Except.ok.injEq] at h
    subst h
    exact sameHandles_get_property env w _ _
  | read_async mime_types io_priority cancellable callback user_data =>
    exact sameHandles_read_async env w w2 _ _ _ _ _ _ h
  | read_finish out result error =>
    simp only [step] at h
    split at h
    · simp at h
    · rename_i r hr
      simp only [Except.ok.injEq] at h
      subst h
      exact sameHandles_read_finish env w _ _ _ _ r hr

theorem sameHandles_run (env : Env β) (self : Addr) (ops : List Op) :
    ∀ (w w2 : World β), run env self w ops = Except.ok w2 → SameHandles w w2 := by
  induction ops with
  | nil =>
    intro w w2 h
    simp only [run, Except.ok.injEq] at h
    subst h
    exact SameHandles.refl w
  | cons op ops ih =>
    intro w w2 h
    simp only [run] at h
    split at h
    · simp at h
    · rename_i w3 h3
      exact (sameHandles_step env self w w3 op h3).trans (ih w3 w2 h)

/-! ## Construction -/

/-- A construction that completes has stored the device and the formats it was
given, and has made the address a drop of the given class. -/
theorem g_object_new_drop_stored (env : Env β) (w w2 : World β) (self : Addr)
    (k : GdkDropClass) (device formats : Ptr)
    (h : g_object_new_drop env w self k device formats = Except.ok w2) :
    w2.priv self = ⟨device, formats⟩ ∧ w2.klass self = some k ∧ device ≠ none := by
  unfold g_object_new_drop gdk_drop_init at h
  cases device with
  | none => simp [gdk_drop_set_property, g_value_dup_object, World.setPriv, PROP_DEVICE] at h
  | some d =>
    cases formats with
    | none =>
      cases hD : env.DROP_SUBCLASS with
      | true =>
        simp [gdk_drop_set_property, g_value_dup_object, g_value_dup_boxed, World.setPriv,
          PROP_DEVICE, PROP_FORMATS, ref, hD] at h
      | false =>
        simp [gdk_drop_set_property, g_value_dup_object, g_value_dup_boxed, World.setPriv,
          PROP_DEVICE, PROP_FORMATS, ref, hD] at h
        subst h
        simp
    | some f =>
      simp [gdk_drop_set_property, g_value_dup_object, g_value_dup_boxed, World.setPriv,
        PROP_DEVICE, PROP_FORMATS, ref] at h
      subst h
      simp

/-- With a device and a formats value, construction completes. -/
theorem g_object_new_drop_ok (env : Env β) (w : World β) (self : Addr) (k : GdkDropClass)
    (d f : Addr) :
    ∃ w2, g_object_new_drop env w self k (some d) (some f) = Except.ok w2 := by
  simp [g_object_new_drop, gdk_drop_init, gdk_drop_set_property, g_value_dup_object,
    g_value_dup_boxed, World.setPriv, PROP_DEVICE, PROP_FORMATS, ref]

/-- The accessors on a valid handle read the private data and record
nothing. -/
theorem accessors_valid (env : Env β) (w : World β) (self : Addr) (k : GdkDropClass)
    (hk : w.klass self = some k) :
    gdk_drop_get_device w (some self) = (w, (w.priv self).device) ∧
    gdk_drop_get_formats w (some self) = (w, (w.priv self).formats) ∧
    gdk_drop_get_display env w (some self)
      = (w, env.gdk_device_get_display (w.priv self).device) := by
  simp [gdk_drop_get_device, gdk_drop_get_formats, gdk_drop_get_display, drop_instance, hk]

/-- The two pointer accessors give the same answers in worlds with the same
handles. -/
theorem accessors_same (w w2 : World β) (h : SameHandles w w2) (self : Ptr) :
    (gdk_drop_get_device w2 self).2 = (gdk_drop_get_device w self).2 ∧
    (gdk_drop_get_formats w2 self).2 = (gdk_drop_get_formats w self).2 := by
  obtain ⟨hp, hk⟩ := h
  cases self with
  | none => simp [gdk_drop_get_device, gdk_drop_get_formats, drop_instance]
  | some a =>
    have hka : w2.klass a = w.klass a := by rw [hk]
    have hpa : w2.priv a = w.priv a := by rw [hp]
    cases hc : w.klass a with
    | none => simp [gdk_drop_get_device, gdk_drop_get_formats, drop_instance, hka, hc]
    | some k => simp [gdk_drop_get_device, gdk_drop_get_formats, drop_instance, hka, hc, hpa]

/-! ## The claims -/

/-- C7: a handle constructed with the device `D` answers `gdk_drop_get_device`
with exactly `D` and `gdk_drop_get_display` with `gdk_device_get_display (D)`,
recording no diagnostic, and reading the display property through
`gdk_drop_get_property` puts that same display into the value. -/
theorem C7_device_and_display (env : Env β) (w w2 : World β) (self D : Addr)
    (k : GdkDropClass) (formats : Ptr)
    (h : g_object_new_drop env w self k (some D) formats = Except.ok w2) :
    gdk_drop_get_device w2 (some self) = (w2, some D) ∧
    gdk_drop_get_display env w2 (some self) = (w2, env.gdk_device_get_display (some D)) ∧
    (gdk_drop_get_property env w2 self PROP_DISPLAY).2
      = some (gdk_drop_get_display env w2 (some self)).2 ∧
    (gdk_drop_get_property env w2 self PROP_DEVICE).2 = some (some D) := by
  obtain ⟨hp, hk, _⟩ := g_object_new_drop_stored env w w2 self k (some D) formats h
  obtain ⟨h1, _, h3⟩ := accessors_valid env w2 self k hk
  rw [h1, h3, hp]
  refine ⟨rfl, rfl, ?_, ?_⟩
  · simp only [gdk_drop_get_property, PROP_DISPLAY, PROP_DEVICE, hp]
    simp only [g_value_set_object]
    cases env.gdk_device_get_display (some D) <;> simp
  · simp [gdk_drop_get_property, PROP_DEVICE, hp, g_value_set_object]

/-- A witness for C7: a drop at address 1 built in `w0` with device 10 and
formats 20. -/
theorem C7_device_and_display_witness :
    gdk_drop_get_device (okOr w0 (g_object_new_drop env0 w0 1 backend_class (some 10) (some 20)))
        (some 1)
      = (okOr w0 (g_object_new_drop env0 w0 1 backend_class (some 10) (some 20)), some 10) ∧
    gdk_drop_get_display env0
        (okOr w0 (g_object_new_drop env0 w0 1 backend_class (some 10) (some 20))) (some 1)
      = (okOr w0 (g_object_new_drop env0 w0 1 backend_class (some 10) (some 20)),
          env0.gdk_device_get_display (some 10)) ∧
    (gdk_drop_get_property env0
        (okOr w0 (g_object_new_drop env0 w0 1 backend_class (some 10) (some 20))) 1
        PROP_DISPLAY).2
      = some (gdk_drop_get_display env0
          (okOr w0 (g_object_new_drop env0 w0 1 backend_class (some 10) (some 20))) (some 1)).2 ∧
    (gdk_drop_get_property env0
        (okOr w0 (g_object_new_drop env0 w0 1 backend_class (some 10) (some 20))) 1
        PROP_DEVICE).2 = some (some 10) :=
  C7_device_and_display env0 w0 _ 1 10 backend_class (some 20) rfl

/-- C8: a handle constructed with the formats value `F` answers
`gdk_drop_get_formats` with exactly `F`, the same address and not a copy; when
the formats property is omitted and `DROP_SUBCLASS` is not defined,
construction completes and `gdk_drop_get_formats` answers with the empty
default of the property, NULL. -/
theorem C8_formats (env : Env β) (w : World β) (self D : Addr) (k : GdkDropClass) :
    (∀ F : Addr, ∃ w2, g_object_new_drop env w self k (some D) (some F) = Except.ok w2 ∧
      gdk_drop_get_formats w2 (some self) = (w2, some F)) ∧
    (env.DROP_SUBCLASS = false →
      ∃ w2, g_object_new_drop env w self k (some D) none = Except.ok w2 ∧
        gdk_drop_get_formats w2 (some self) = (w2, none)) := by
  constructor
  · intro F
    obtain ⟨w2, h⟩ := g_object_new_drop_ok env w self k D F
    refine ⟨w2, h, ?_⟩
    obtain ⟨hp, hk, _⟩ := g_object_new_drop_stored env w w2 self k _ _ h
    rw [(accessors_valid env w2 self k hk).2.1, hp]
  · intro hD
    have hex : ∃ w2, g_object_new_drop env w self k (some D) none = Except.ok w2 := by
      simp [g_object_new_drop, gdk_drop_init, gdk_drop_set_property, g_value_dup_object,
        g_value_dup_boxed, World.setPriv, PROP_DEVICE, PROP_FORMATS, ref, hD]
    obtain ⟨w2, h⟩ := hex
    refine ⟨w2, h, ?_⟩
    obtain ⟨hp, hk, _⟩ := g_object_new_drop_stored env w w2 self k _ _ h
    rw [(accessors_valid env w2 self k hk).2.1, hp]

/-- A witness for C8: in `env0`, where `DROP_SUBCLASS` is not defined, a drop
built without formats answers NULL. -/
theorem C8_formats_witness :
    ∃ w2, g_object_new_drop env0 w0 1 backend_class (some 10) none = Except.ok w2 ∧
      gdk_drop_get_formats w2 (some 1) = (w2, none) :=
  (C8_formats env0 w0 1 10 backend_class).2 rfl

/-- C6: construction takes one reference on the formats value `F` and
`gdk_drop_finalize` gives none back: after construct-then-finalize the count of
`F` is one above its count before construction, and the private data still
holds `F`. Only the device pointer is cleared. -/
theorem C6_finalize_keeps_formats_reference (env : Env β) (w : World β) (self D F : Addr)
    (k : GdkDropClass) :
    ∃ w2, g_object_new_drop env w self k (some D) (some F) = Except.ok w2 ∧
      (gdk_drop_finalize w2 self).refs F = w.refs F + 1 ∧
      ((gdk_drop_finalize w2 self).priv self).formats = some F ∧
      ((gdk_drop_finalize w2 self).priv self).device = none := by
  obtain ⟨w2, h⟩ := g_object_new_drop_ok env w self k D F
  refine ⟨w2, h, ?_⟩
  simp [g_object_new_drop, gdk_drop_init, gdk_drop_set_property, g_value_dup_object,
    g_value_dup_boxed, World.setPriv, PROP_DEVICE, PROP_FORMATS, ref] at h
  subst h
  by_cases hDF : F = D
  · subst hDF
    simp [gdk_drop_finalize, g_clear_object, unref, World.setPriv, World.record]
  · simp [gdk_drop_finalize, g_clear_object, unref, World.setPriv, World.record, hDF]

/-- The device side of finalisation: when the device and the formats value are
different objects, construct-then-finalize leaves the count of the device as
it was before construction. -/
theorem finalize_releases_device (env : Env β) (w : World β) (self D F : Addr)
    (k : GdkDropClass) (hDF : D ≠ F) :
    ∃ w2, g_object_new_drop env w self k (some D) (some F) = Except.ok w2 ∧
      (gdk_drop_finalize w2 self).refs D = w.refs D := by
  obtain ⟨w2, h⟩ := g_object_new_drop_ok env w self k D F
  refine ⟨w2, h, ?_⟩
  simp [g_object_new_drop, gdk_drop_init, gdk_drop_set_property, g_value_dup_object,
    g_value_dup_boxed, World.setPriv, PROP_DEVICE, PROP_FORMATS, ref] at h
  subst h
  simp [gdk_drop_finalize, g_clear_object, unref, World.setPriv, World.record, hDF]

/-- The function `gdk_drop_read_async` returns, except through an empty `read_async`
slot. -/
theorem read_async_fault (env : Env β) (w : World β) (self : Ptr)
    (mime_types : Option (List String)) (io_priority : Int)
    (cancellable callback user_data : Ptr) (e : Fault)
    (h : gdk_drop_read_async env w self mime_types io_priority cancellable callback user_data
      = Except.error e) :
    ∃ a k, drop_instance w self = some (a, k) ∧ k.read_async = none := by
  unfold gdk_drop_read_async at h
  split at h
  · simp at h
  · rename_i a k hi
    refine ⟨a, k, hi, ?_⟩
    split at h
    · simp at h
    · simp at h
    · split at h
      · simp at h
      · split at h
        · simp at h
        · cases hs : k.read_async with
          | none => rfl
          | some impl =>
            cases impl <;> simp [call_read_async, hs] at h

/-- The function `gdk_drop_read_finish` returns, except through an empty `read_finish`
slot. -/
theorem read_finish_fault (env : Env β) (w : World β) (self : Ptr) (out : MimeLoc)
    (result : GAsyncResult) (error : ErrorLoc) (e : Fault)
    (h : gdk_drop_read_finish env w self out result error = Except.error e) :
    ∃ a k, drop_instance w self = some (a, k) ∧ k.read_finish = none := by
  unfold gdk_drop_read_finish at h
  split at h
  · simp at h
  · rename_i a k hi
    refine ⟨a, k, hi, ?_⟩
    split at h
    · simp at h
    · split at h
      · simp at h
      · cases hs : k.read_finish with
        | none => rfl
        | some impl =>
          cases impl <;> simp [call_read_finish, hs] at h

/-- C9: construction with a NULL device stops at the assertion
`priv->device != NULL` of `gdk_drop_set_property`, and in every state reached
from a completed construction by the accessors, property reads,
`gdk_drop_read_async` and `gdk_drop_read_finish`, in any number and order, the
stored device is not NULL. -/
theorem C9_device_non_null (env : Env β) (w : World β) (self : Addr) (k : GdkDropClass)
    (formats : Ptr) :
    g_object_new_drop env w self k none formats
      = Except.error (Fault.assertion_failed "priv->device != NULL") ∧
    ∀ (device : Ptr) (w2 w3 : World β) (ops : List Op),
      g_object_new_drop env w self k device formats = Except.ok w2 →
      run env self w2 ops = Except.ok w3 →
      (w3.priv self).device ≠ none ∧ (gdk_drop_get_device w3 (some self)).2 ≠ none := by
  constructor
  · simp [g_object_new_drop, gdk_drop_init, gdk_drop_set_property, g_value_dup_object,
      World.setPriv, PROP_DEVICE]
  · intro device w2 w3 ops h hr
    obtain ⟨hp, hk, hd⟩ := g_object_new_drop_stored env w w2 self k device formats h
    have hs := sameHandles_run env self ops w2 w3 hr
    have hp3 : w3.priv self = ⟨device, formats⟩ := by rw [hs.1, hp]
    have hk3 : w3.klass self = some k := by rw [hs.2, hk]
    rw [(accessors_valid env w3 self k hk3).1, hp3]
    exact ⟨hd, hd⟩

/-- A witness for C9: the drop at address 1 with device 10, after `ops0`. -/
theorem C9_device_non_null_witness :
    ((okOr w0 (run env0 1
        (okOr w0 (g_object_new_drop env0 w0 1 backend_class (some 10) (some 20)))
        ops0)).priv 1).device ≠ none ∧
    (gdk_drop_get_device (okOr w0 (run env0 1
        (okOr w0 (g_object_new_drop env0 w0 1 backend_class (some 10) (some 20)))
        ops0)) (some 1)).2 ≠ none :=
  (C9_device_non_null env0 w0 1 backend_class (some 20)).2 (some 10) _ _ ops0 rfl rfl

/-- C10: `gdk_drop_read_async` and `gdk_drop_read_finish` leave the private
data of every handle as it was, on each of their paths (rejected, local,
forwarded); they return unless the slot they call through is empty; and after
any sequence of operations on a handle, read requests and completions among
them, `gdk_drop_get_device` and `gdk_drop_get_formats` answer for every handle
what they answered before. -/
theorem C10_reads_keep_handle_state (env : Env β) (w : World β) (self : Ptr)
    (mime_types : Option (List String)) (io_priority : Int)
    (cancellable callback user_data : Ptr) (out : MimeLoc) (result : GAsyncResult)
    (error : ErrorLoc) :
    (∀ w2, gdk_drop_read_async env w self mime_types io_priority cancellable callback user_data
        = Except.ok w2 → w2.priv = w.priv) ∧
    (∀ e, gdk_drop_read_async env w self mime_types io_priority cancellable callback user_data
        = Except.error e → ∃ a k, drop_instance w self = some (a, k) ∧ k.read_async = none) ∧
    (∀ r, gdk_drop_read_finish env w self out result error = Except.ok r → r.1.priv = w.priv) ∧
    (∀ e, gdk_drop_read_finish env w self out result error = Except.error e →
        ∃ a k, drop_instance w self = some (a, k) ∧ k.read_finish = none) ∧
    (∀ (a : Addr) (ops : List Op) (w2 : World β), run env a w ops = Except.ok w2 →
        ∀ h : Ptr, (gdk_drop_get_device w2 h).2 = (gdk_drop_get_device w h).2 ∧
          (gdk_drop_get_formats w2 h).2 = (gdk_drop_get_formats w h).2) := by
  refine ⟨?_, ?_, ?_, ?_, ?_⟩
  · intro w2 h
    exact (sameHandles_read_async env w w2 _ _ _ _ _ _ h).1
  · intro e h
    exact read_async_fault env w _ _ _ _ _ _ e h
  · intro r h
    exact (sameHandles_read_finish env w _ _ _ _ r h).1
  · intro e h
    exact read_finish_fault env w _ _ _ _ e h
  · intro a ops w2 h p
    exact accessors_same w w2 (sameHandles_run env a ops w w2 h) p

/-- A witness for C10: the drop at address 1 holding device 10 and formats 20
answers the same after the operations `ops0`. -/
theorem C10_reads_keep_handle_state_witness :
    (gdk_drop_get_device (okOr w0 (run env0 1 (w_drop 1 backend_class) ops0)) (some 1)).2
      = (gdk_drop_get_device (w_drop 1 backend_class) (some 1)).2 ∧
    (gdk_drop_get_formats (okOr w0 (run env0 1 (w_drop 1 backend_class) ops0)) (some 1)).2
      = (gdk_drop_get_formats (w_drop 1 backend_class) (some 1)).2 :=
  (C10_reads_keep_handle_state env0 (w_drop 1 backend_class) (some 1) none 0 none none none none
    (GAsyncResult.foreign 0 none) none).2.2.2.2 1 ops0 _ rfl (some 1)

/-- The local finish function records at most one diagnostic, and calls
nothing. -/
theorem local_finish_trace (w : World β) (self : Ptr) (out : MimeLoc) (result : GAsyncResult)
    (error : ErrorLoc) :
    (gdk_drop_read_local_finish w self out result error).1.backend = w.backend ∧
    ((gdk_drop_read_local_finish w self out result error).1.trace = w.trace ∨
      ∃ c, (gdk_drop_read_local_finish w self out result error).1.trace
        = w.trace ++ [Event.critical c]) := by
  unfold gdk_drop_read_local_finish
  split
  · exact ⟨rfl, Or.inr ⟨_, rfl⟩⟩
  · split
    · exact ⟨rfl, Or.inr ⟨_, rfl⟩⟩
    · split
      · exact ⟨rfl, Or.inr ⟨_, rfl⟩⟩
      · dsimp only
        unfold g_task_propagate_pointer
        split
        · exact ⟨rfl, Or.inl rfl⟩
        · split
          · exact ⟨rfl, Or.inl rfl⟩
          · split
            · exact ⟨rfl, Or.inl rfl⟩
            · exact ⟨rfl, Or.inr ⟨_, rfl⟩⟩

/-- C4: with an empty mime-type list, a NULL array or an array whose first
element is NULL, `gdk_drop_read_async` returns after recording one usage
error: the failed handle check when the handle is not a drop, the failed list
check otherwise. Nothing else changes: no formats set is built, no virtual
method is called, whatever the other arguments are. -/
theorem C4_empty_list_rejected (env : Env β) (w : World β) (self : Ptr) (io_priority : Int)
    (cancellable callback user_data : Ptr) :
    gdk_drop_read_async env w self none io_priority cancellable callback user_data
      = Except.ok (w.record (Event.critical
          (if GDK_IS_DROP w self then "mime_types != NULL && mime_types[0] != NULL"
           else "GDK_IS_DROP (self)"))) ∧
    gdk_drop_read_async env w self (some []) io_priority cancellable callback user_data
      = Except.ok (w.record (Event.critical
          (if GDK_IS_DROP w self then "mime_types != NULL && mime_types[0] != NULL"
           else "GDK_IS_DROP (self)"))) := by
  unfold gdk_drop_read_async GDK_IS_DROP
  cases h : drop_instance w self with
  | none => simp [g_return_if_fail_warning]
  | some p => simp [g_return_if_fail_warning]

/-- Forwarding through the slot: on a valid handle, with a non-empty list, a
cancellable that is NULL or a cancellable, and a callback, `gdk_drop_read_async`
with a function in the class's `read_async` slot returns having made exactly
three calls, in this order: `gdk_content_formats_new` on the whole list with
its `g_strv_length`, the function in the slot with the handle, that formats
set and the caller's priority, cancellable, callback and user data, and
`gdk_content_formats_unref` of the formats set. A backend function in the slot
has run once on the backend state, with these arguments. With an empty slot
the call goes through NULL and nothing returns. -/
theorem read_async_forwards (env : Env β) (w : World β) (self : Addr) (k : GdkDropClass)
    (m : String) (ms : List String) (io_priority : Int) (cancellable callback user_data : Ptr)
    (hk : w.klass self = some k)
    (hc : cancellable = none ∨ G_IS_CANCELLABLE w cancellable = true)
    (hcb : callback ≠ none) :
    (∀ impl, k.read_async = some impl →
      ∃ w2, gdk_drop_read_async env w (some self) (some (m :: ms)) io_priority cancellable
          callback user_data = Except.ok w2 ∧
        w2.trace = w.trace ++
          [Event.gdk_content_formats_new (m :: ms) (g_strv_length (m :: ms)),
           Event.read_async impl
             ⟨self, env.gdk_content_formats_new (m :: ms) (g_strv_length (m :: ms)),
              io_priority, cancellable, callback, user_data⟩,
           Event.gdk_content_formats_unref
             (env.gdk_content_formats_new (m :: ms) (g_strv_length (m :: ms)))] ∧
        (∀ id, impl = ReadAsyncImpl.backend id →
          w2.backend = env.read_async id w.backend
            ⟨self, env.gdk_content_formats_new (m :: ms) (g_strv_length (m :: ms)),
             io_priority, cancellable, callback, user_data⟩)) ∧
    (k.read_async = none →
      gdk_drop_read_async env w (some self) (some (m :: ms)) io_priority cancellable
          callback user_data = Except.error (Fault.null_call "read_async")) := by
  have hchk : (!(cancellable == none || G_IS_CANCELLABLE w cancellable)) = false := by
    rcases hc with hc | hc
    · subst hc
      simp
    · simp [hc]
  have hcb2 : (callback == none) = false := by
    cases callback with
    | none => exact absurd rfl hcb
    | some c => rfl
  constructor
  · intro impl hs
    unfold gdk_drop_read_async
    simp only [drop_instance, hk, hchk, hcb2, hs]
    cases impl with
    | gdk_drop_read_local_async =>
      refine ⟨_, rfl, ?_, ?_⟩
      · simp [gdk_content_formats_unref, unref, World.record, gdk_drop_read_local_async,
          g_task_return_new_error, gdk_content_formats_new]
      · intro id hid
        cases hid
    | backend id =>
      refine ⟨_, rfl, ?_, ?_⟩
      · simp [gdk_content_formats_unref, unref, World.record, gdk_content_formats_new]
      · intro id2 hid
        cases hid
        rfl
  · intro hs
    unfold gdk_drop_read_async
    simp [drop_instance, hk, hchk, hcb2, hs, call_read_async]

/-- C3: the claim holds for a class with a function in its `read_async` slot
and fails for the base class, whose slot `gdk_drop_class_init` leaves empty.
The drop at address 1 of the base class is a valid handle, the list has two
entries, address 50 is a cancellable and the callback is not NULL, so all four
checks pass; the call then goes through the NULL slot and does not return: no
virtual `read_async` runs. The same request on a handle whose class holds the
function of backend 0 returns after one `read_async` call with the unchanged
arguments. -/
theorem C3_base_class_call_through_empty_slot :
    GDK_IS_DROP (w_drop 1 gdk_drop_class) (some 1) = true ∧
    G_IS_CANCELLABLE (w_drop 1 gdk_drop_class) (some 50) = true ∧
    gdk_drop_class.read_async = none ∧
    gdk_drop_read_async env0 (w_drop 1 gdk_drop_class) (some 1)
        (some ["text/plain", "text/uri-list"]) 5 (some 50) (some 7) (some 8)
      = Except.error (Fault.null_call "read_async") ∧
    (okOr w0 (gdk_drop_read_async env0 (w_drop 1 backend_class) (some 1)
        (some ["text/plain", "text/uri-list"]) 5 (some 50) (some 7) (some 8))).trace
      = [Event.gdk_content_formats_new ["text/plain", "text/uri-list"] 2,
         Event.read_async (ReadAsyncImpl.backend 0) ⟨1, 1002, 5, some 50, some 7, some 8⟩,
         Event.gdk_content_formats_unref 1002] :=
  ⟨rfl, rfl, rfl, rfl, rfl⟩

/-- On a valid handle with an empty error location, `gdk_drop_read_finish` is
its tag test followed by one of the two finish functions. -/
theorem read_finish_valid (env : Env β) (w : World β) (self : Addr) (k : GdkDropClass)
    (out : MimeLoc) (result : GAsyncResult) (error : ErrorLoc)
    (hk : w.klass self = some k) (he : error = none ∨ error = some none) :
    gdk_drop_read_finish env w (some self) out result error
      = if g_async_result_is_tagged result SourceTag.gdk_drop_read_local_async then
          Except.ok (gdk_drop_read_local_finish w (some self) out result error)
        else call_read_finish env w k.read_finish ⟨self, out, result, error⟩ := by
  unfold gdk_drop_read_finish
  rcases he with he | he <;> subst he <;> simp [drop_instance, hk]

/-- C2: on a valid handle with an empty error location, a token tagged with
`gdk_drop_read_local_async` gets exactly the result of
`gdk_drop_read_local_finish`, the backend state is untouched and no
`read_finish` call is made; any other token gets exactly the result of the
call through the class's `read_finish` slot with the same handle, out
location, token and error location, and a backend function in the slot has
run once, with these arguments. -/
theorem C2_read_finish_dispatch (env : Env β) (w : World β) (self : Addr) (k : GdkDropClass)
    (out : MimeLoc) (result : GAsyncResult) (error : ErrorLoc)
    (hk : w.klass self = some k) (he : error = none ∨ error = some none) :
    (g_async_result_is_tagged result SourceTag.gdk_drop_read_local_async = true →
      gdk_drop_read_finish env w (some self) out result error
        = Except.ok (gdk_drop_read_local_finish w (some self) out result error) ∧
      (gdk_drop_read_local_finish w (some self) out result error).1.backend = w.backend ∧
      ∀ impl args,
        Event.read_finish impl args
            ∈ (gdk_drop_read_local_finish w (some self) out result error).1.trace →
          Event.read_finish impl args ∈ w.trace) ∧
    (g_async_result_is_tagged result SourceTag.gdk_drop_read_local_async = false →
      gdk_drop_read_finish env w (some self) out result error
        = call_read_finish env w k.read_finish ⟨self, out, result, error⟩ ∧
      ∀ id, k.read_finish = some (ReadFinishImpl.backend id) →
        gdk_drop_read_finish env w (some self) out result error
          = Except.ok
              ({ w with
                 trace := w.trace ++
                   [Event.read_finish (ReadFinishImpl.backend id) ⟨self, out, result, error⟩]
                 backend := (env.read_finish id w.backend ⟨self, out, result, error⟩).1 },
               (env.read_finish id w.backend ⟨self, out, result, error⟩).2)) := by
  have hv := read_finish_valid env w self k out result error hk he
  constructor
  · intro ht
    rw [hv, if_pos ht]
    obtain ⟨hb, htr⟩ := local_finish_trace w (some self) out result error
    refine ⟨rfl, hb, ?_⟩
    intro impl args hmem
    rcases htr with htr | ⟨c, htr⟩
    · rw [htr] at hmem
      exact hmem
    · rw [htr] at hmem
      simpa using hmem
  · intro ht
    rw [hv, ht]
    refine ⟨by simp, ?_⟩
    intro id hid
    simp [call_read_finish, hid, World.record]

/-- A witness for C2: the drop at address 1 with the functions of backend 0 in
its slots completes a token of the backend. -/
theorem C2_read_finish_dispatch_witness :
    gdk_drop_read_finish env0 (w_drop 1 backend_class) (some 1) (some none) foreign_token
        (some none)
      = call_read_finish env0 (w_drop 1 backend_class) backend_class.read_finish
          ⟨1, some none, foreign_token, some none⟩ :=
  ((C2_read_finish_dispatch env0 (w_drop 1 backend_class) 1 backend_class (some none)
    foreign_token (some none) rfl (Or.inr rfl)).2 rfl).1

/-- C5, as stated, fails: in a world where no read was ever requested (empty
trace, nothing pending), the drop at address 1 is handed a token whose source
object is the drop at address 2. `gdk_drop_read_finish` records no usage
error; it makes one `read_finish` call and returns the stream the backend
gives, with the error location still empty. -/
theorem C5_counterexample :
    (w_drop 1 backend_class).trace = [] ∧
    (w_drop 1 backend_class).pending = [] ∧
    g_task_is_valid foreign_token (some 1) = false ∧
    (okOr (w0, ⟨none, none, none⟩)
      (gdk_drop_read_finish env0 (w_drop 1 backend_class) (some 1) (some none) foreign_token
        (some none))).2 = ⟨some 99, some (some "text/plain"), some none⟩ ∧
    (okOr (w0, ⟨none, none, none⟩)
      (gdk_drop_read_finish env0 (w_drop 1 backend_class) (some 1) (some none) foreign_token
        (some none))).1.trace
      = [Event.read_finish (ReadFinishImpl.backend 0) ⟨1, some none, foreign_token, some none⟩] :=
  ⟨rfl, rfl, rfl, rfl, rfl⟩

/-- C5, amended: the handle is compared with the token on the local path only.
On a valid handle with an empty error location, a token tagged with
`gdk_drop_read_local_async` that is not a task of this handle is a usage error:
one diagnostic is recorded, NULL is returned, both out locations stay as they
were and no virtual method runs. A token without that tag is handed to the
backend function in the `read_finish` slot unchecked: no diagnostic is
recorded here and the result is the backend's. -/
theorem C5_mismatch_checked_on_local_path (env : Env β) (w : World β) (self : Addr)
    (k : GdkDropClass) (out : MimeLoc) (result : GAsyncResult) (error : ErrorLoc)
    (hk : w.klass self = some k) (he : error = none ∨ error = some none) :
    (g_async_result_is_tagged result SourceTag.gdk_drop_read_local_async = true →
      g_task_is_valid result (some self) = false →
      gdk_drop_read_finish env w (some self) out result error
        = Except.ok (w.record (Event.critical "g_task_is_valid (result, self)"),
            ⟨none, out, error⟩)) ∧
    (g_async_result_is_tagged result SourceTag.gdk_drop_read_local_async = false →
      ∀ id, k.read_finish = some (ReadFinishImpl.backend id) →
        ∃ w2, gdk_drop_read_finish env w (some self) out result error
            = Except.ok (w2, (env.read_finish id w.backend ⟨self, out, result, error⟩).2) ∧
          ∀ c, Event.critical c ∈ w2.trace → Event.critical c ∈ w.trace) := by
  have hv := read_finish_valid env w self k out result error hk he
  constructor
  · intro ht hnv
    rw [hv, if_pos ht]
    simp [gdk_drop_read_local_finish, hnv, g_return_if_fail_warning]
  · intro ht id hid
    rw [hv, ht]
    refine ⟨{ w.record (Event.read_finish (ReadFinishImpl.backend id)
                ⟨self, out, result, error⟩) with
              backend := (env.read_finish id w.backend ⟨self, out, result, error⟩).1 }, ?_, ?_⟩
    · simp [call_read_finish, hid, World.record]
    · intro c hc
      simpa [World.record] using hc

/-- A witness for the amended C5: the drop at address 1 is handed a token with
the local tag whose source object is the drop at address 2. -/
theorem C5_mismatch_checked_on_local_path_witness :
    gdk_drop_read_finish env0 (w_drop 1 backend_class) (some 1) (some none) stray_local_token
        (some none)
      = Except.ok ((w_drop 1 backend_class).record
            (Event.critical "g_task_is_valid (result, self)"),
          ⟨none, some none, some none⟩) :=
  (C5_mismatch_checked_on_local_path env0 (w_drop 1 backend_class) 1 backend_class (some none)
    stray_local_token (some none) rfl (Or.inr rfl)).1 rfl rfl

/-- C1: `gdk_drop_class_init` assigns neither virtual slot, so the class of the
base drop type has an empty `read_async` slot, and `gdk_drop_read_async` on a
handle of that class, with a non-empty list and a callback, calls through the
empty slot after building the formats set: it does not return, no task is
made and there is no token to finish. -/
theorem C1_base_class_read_async_slot_empty :
    (∀ klass : GdkDropClass,
      (gdk_drop_class_init klass).read_async = klass.read_async ∧
      (gdk_drop_class_init klass).read_finish = klass.read_finish) ∧
    gdk_drop_class.read_async = none ∧
    gdk_drop_read_async env0 (w_drop 1 gdk_drop_class) (some 1)
        (some ["text/plain", "text/uri-list"]) 0 none (some 7) none
      = Except.error (Fault.null_call "read_async") :=
  ⟨fun _ => ⟨rfl, rfl⟩, rfl, rfl⟩

/-- What the local pair does when it is reached: were the local function in
the `read_async` slot, a read request with a cancellable that is not cancelled
would queue one task, and finishing that task would give no stream, a NULL
mime type and the error `G_IO_ERROR_NOT_SUPPORTED`, whatever the list. -/
theorem local_pair_round_trip (env : Env β) (w : World β) (self : Addr) (k : GdkDropClass)
    (m : String) (ms : List String) (io_priority : Int) (cancellable callback user_data : Ptr)
    (out : MimeLoc)
    (hk : w.klass self = some k)
    (hs : k.read_async = some ReadAsyncImpl.gdk_drop_read_local_async)
    (hc : cancellable = none ∨ G_IS_CANCELLABLE w cancellable = true)
    (hcb : callback ≠ none)
    (hn : g_cancellable_is_cancelled w cancellable = false) :
    ∃ w2 t, gdk_drop_read_async env w (some self) (some (m :: ms)) io_priority cancellable
        callback user_data = Except.ok w2 ∧
      w2.pending = w.pending ++ [t] ∧
      gdk_drop_read_finish env w2 (some self) out (GAsyncResult.task t) (some none)
        = Except.ok (w2, ⟨none, out.map (fun _ => none),
            some (some ⟨GErrorDomain.G_IO_ERROR, GIOErrorEnum.G_IO_ERROR_NOT_SUPPORTED,
              "Reading not implemented."⟩)⟩) := by
  have hchk : (!(cancellable == none || G_IS_CANCELLABLE w cancellable)) = false := by
    rcases hc with hc | hc
    · subst hc
      simp
    · simp [hc]
  have hcb2 : (callback == none) = false := by
    cases callback with
    | none => exact absurd rfl hcb
    | some c => rfl
  have hn2 : ∀ w3 : World β, w3.cancelled = w.cancelled →
      g_cancellable_is_cancelled w3 cancellable = false := by
    intro w3 h3
    cases cancellable with
    | none => rfl
    | some c =>
      simp only [g_cancellable_is_cancelled] at hn ⊢
      rw [h3]
      exact hn
  unfold gdk_drop_read_async
  simp only [drop_instance, hk, hchk, hcb2, hs, call_read_async]
  refine ⟨_, { g_task_set_source_tag (g_task_set_priority
      (g_task_new (some self) cancellable callback user_data) io_priority)
      SourceTag.gdk_drop_read_local_async with
      error := some ⟨GErrorDomain.G_IO_ERROR, GIOErrorEnum.G_IO_ERROR_NOT_SUPPORTED,
        "Reading not implemented."⟩ }, rfl, ?_, ?_⟩
  · simp [gdk_content_formats_unref, unref, World.record, gdk_drop_read_local_async,
      g_task_return_new_error, gdk_content_formats_new]
  · unfold gdk_drop_read_finish
    simp only [drop_instance, gdk_content_formats_unref, unref, World.record,
      gdk_drop_read_local_async, g_task_return_new_error, gdk_content_formats_new, hk]
    cases out <;>
      simp [g_async_result_is_tagged, g_task_set_source_tag, g_task_set_priority, g_task_new,
        gdk_drop_read_local_finish, g_task_is_valid, g_task_propagate_pointer, hn2,
        g_propagate_error]

end GdkDrop
